import Mathlib

/-!
Verification of the generic tool-configuration and dispatch mechanism of the
mcp-digitalocean droplet registry (`pkg/registry/droplet`).

The Go code is shallowly embedded: dynamically typed argument-map values become
the inductive `Value`; Go functions returning `(result, error)` pairs become
functions into `Except`/sum-like outcome types; external collaborators
(the godo SDK client, `encoding/json` marshalling and unmarshalling) are
parameters of the embedded functions, since they are not code of this
repository.  Calls to the client factory, the handler, and the upstream SDK
are counted explicitly (`Trace`, `LegacyTrace`) so that "is not invoked" is a
provable statement.  Go `float64` argument values are modelled as rationals;
Go's `int(f)` conversion truncates toward zero, which `ratTrunc` mirrors.
Go panics from failed unchecked type assertions (`v.(float64)`) are modelled
by explicit `panicked` outcome constructors.
-/

set_option autoImplicit false

namespace MCPDroplet

/-- Dynamically typed value of an argument map (Go `interface\x7b\x7d` holding a
JSON-decoded value: string, float64 number, int, bool, array, object or nil). -/
inductive Value where
  | str (s : String)
  | num (q : ℚ)
  | int (n : Int)
  | bool (b : Bool)
  | arr (elems : List Value)
  | obj (fields : List (String × Value))
  | null

/-- Argument maps are string-keyed maps (Go `map[string]interface\x7b\x7d`),
modelled as association lists with first-match lookup. -/
abbrev Args := List (String × Value)

/-- Go map indexing `args[name]` with the comma-ok idiom: `none` means absent. -/
def lookupArg : Args → String → Option Value
  | [], _ => none
  | (k, v) :: rest, name => if k = name then some v else lookupArg rest name

/-- Go conversion `int(f)` of a `float64`: truncation toward zero.
`Int.tdiv` is T-division, which truncates toward zero. -/
def ratTrunc (q : ℚ) : Int :=
  Int.tdiv q.num (q.den : Int)

/-- Embeds `GetArgumentString` (droplet_tools.go): a present string value, else "". -/
def GetArgumentString (args : Args) (name : String) : String :=
  match lookupArg args name with
  | some (.str s) => s
  | _ => ""

/-- Embeds `GetArgumentNumber` (droplet_tools.go): a present float64 is truncated
to int, a present int is returned; anything else yields 0.  (The `json.Number`
branch of the Go switch is not representable in MCP-decoded argument maps and
is omitted.) -/
def GetArgumentNumber (args : Args) (name : String) : Int :=
  match lookupArg args name with
  | some (.num q) => ratTrunc q
  | some (.int n) => n
  | _ => 0

/-- Embeds `GetArgumentBoolean` (droplet_tools.go): a present bool, else false. -/
def GetArgumentBoolean (args : Args) (name : String) : Bool :=
  match lookupArg args name with
  | some (.bool b) => b
  | _ => false

/-- Embeds `GetArgumentArray` (droplet_tools.go): a present array, else nil
(`none`). -/
def GetArgumentArray (args : Args) (name : String) : Option (List Value) :=
  match lookupArg args name with
  | some (.arr elems) => some elems
  | _ => none

/-- Embeds `GetArgumentObject` (droplet_tools.go): a present object, else nil. -/
def GetArgumentObject (args : Args) (name : String) : Option (List (String × Value)) :=
  match lookupArg args name with
  | some (.obj fields) => some fields
  | _ => none

/-- Embeds `godo.ListOptions` (the fields the repository sets). -/
structure ListOptions where
  page : Int
  perPage : Int
deriving DecidableEq, Repr

/-- Embeds `godo.DropletCreateSSHKey`: either a numeric ID or a fingerprint,
with Go zero values for the unset field. -/
structure DropletCreateSSHKey where
  id : Int
  fingerprint : String
deriving DecidableEq, Repr

/-- Embeds `godo.DropletBackupPolicyRequest` (external godo type; field detail
is never inspected by the repository, which only unmarshals into it and
forwards it). -/
structure DropletBackupPolicyRequest where
  plan : String
  weekday : String
  hour : Option Int
deriving DecidableEq, Repr

/-- Embeds `godo.DropletCreateRequest` with the fields the repository sets.
A `DropletCreateVolume` is represented by its ID string. -/
structure DropletCreateRequest where
  name : String
  size : String
  imageID : Int
  region : String
  backups : Bool
  monitoring : Bool
  ipv6 : Bool
  vpcUUID : String
  userData : String
  volumes : List String
  withDropletAgent : Option Bool
  backupPolicy : Option DropletBackupPolicyRequest
  sshKeys : List DropletCreateSSHKey
  tags : List String

/-- Embeds the fields of `godo.Droplet` read by the list handlers' filtering
loop.  Substructures the repository never inspects (region, image, ...) are
kept as opaque `Value` payloads. -/
structure Droplet where
  id : Int
  name : String
  memory : Int
  vcpus : Int
  disk : Int
  region : Value
  image : Value
  size : Value
  sizeSlug : String
  backupIDs : List Int
  nextBackupWindow : Value
  snapshotIDs : List Int
  features : List String
  locked : Bool
  status : String
  networks : Value
  created : String
  kernel : Value
  tags : List String
  volumeIDs : List String
  vpcUUID : String

/-- The upstream godo client: one function per SDK capability the embedded
handlers call.  Each returns the call's outcome; payloads the repository never
inspects are opaque `Value`s.  The client is an external collaborator, so its
behaviour is a parameter of the model. -/
structure Client where
  dropletsGet : Int → Except String Value
  dropletsDelete : Int → Except String Unit
  dropletsList : ListOptions → Except String (List Droplet)
  dropletsNeighbors : Int → Except String Value
  dropletsCreate : DropletCreateRequest → Except String Value
  dropletActionsEnablePrivateNetworking : Int → Except String Value

/-- Outcome of a Go `HandlerFunc` body: a returned value (`ok`), a returned
error (`err`), or a runtime panic from an unchecked type assertion. -/
inductive HandlerOutcome where
  | panicked (msg : String)
  | err (msg : String)
  | ok (v : Value)

/-- A handler outcome together with the number of upstream SDK calls the
handler performed. -/
abbrev HandlerResult := HandlerOutcome × Nat

/-- Signature of `HandlerFunc` (droplet_tools.go); the Go `ctx` parameter is
threaded unchanged to the client and is omitted. -/
abbrev HandlerFunc := Client → Args → HandlerResult

/-- Embeds `ArgumentType` (droplet_tools.go). -/
inductive ArgumentType where
  | string
  | number
  | boolean
  | array
  | object
deriving DecidableEq, Repr

/-- The Go string value of an `ArgumentType` constant. -/
def typeString : ArgumentType → String
  | .string => "string"
  | .number => "number"
  | .boolean => "boolean"
  | .array => "array"
  | .object => "object"

/-- Embeds `ArgumentConfig` (droplet_tools.go); `DefaultValue interface\x7b\x7d`
with `nil` becomes `Option Value` with `none`. -/
structure ArgumentConfig where
  name : String
  type : ArgumentType
  description : String
  required : Bool
  defaultValue : Option Value

/-- Embeds `ToolConfig` (droplet_tools.go). -/
structure ToolConfig where
  name : String
  description : String
  arguments : List ArgumentConfig
  handler : HandlerFunc

/-- Embeds `mcp.CallToolRequest` (only the argument map is read). -/
structure CallToolRequest where
  arguments : Args

/-- Embeds `req.GetArguments()`. -/
def CallToolRequest.getArguments (req : CallToolRequest) : Args :=
  req.arguments

/-- Embeds `mcp.CallToolResult`: an error flag plus a single text payload. -/
structure CallToolResult where
  isError : Bool
  text : String
deriving DecidableEq, Repr

/-- Embeds `mcp.NewToolResultText`. -/
def newToolResultText (s : String) : CallToolResult :=
  { isError := false, text := s }

/-- Embeds `mcp.NewToolResultError`. -/
def newToolResultError (msg : String) : CallToolResult :=
  { isError := true, text := msg }

/-- Embeds `mcp.NewToolResultErrorFromErr`, which formats the fixed text
followed by the underlying error message. -/
def newToolResultErrorFromErr (pre : String) (msg : String) : CallToolResult :=
  { isError := true, text := pre ++ ": " ++ msg }

/-- Outcome of a Go function returning `(*mcp.CallToolResult, error)`:
a normal result with nil error (`result`), a nil result with non-nil error
(`hardErr`), or a runtime panic. -/
inductive DispatchOutcome where
  | panicked (msg : String)
  | hardErr (msg : String)
  | result (r : CallToolResult)
deriving DecidableEq, Repr

/-- True exactly on the `panicked` outcome. -/
def DispatchOutcome.isPanic : DispatchOutcome → Bool
  | .panicked _ => true
  | _ => false

/-- True exactly on a normal result whose error flag is clear. -/
def DispatchOutcome.isNonFault : DispatchOutcome → Bool
  | .result r => !r.isError
  | _ => false

/-- Loop body of `ToolConfig.ValidateArguments` (droplet_tools.go): the first
required argument absent from the map produces the error; `none` is success. -/
def validateLoop (args : Args) : List ArgumentConfig → Option String
  | [] => none
  | a :: rest =>
    if a.required && (lookupArg args a.name).isNone then
      some ("missing required argument: " ++ a.name)
    else
      validateLoop args rest

/-- Embeds `ToolConfig.ValidateArguments` (droplet_tools.go). -/
def ValidateArguments (tc : ToolConfig) (args : Args) : Option String :=
  validateLoop args tc.arguments

/-- Invocation counts observed during one dispatch: client-factory calls,
handler calls, and upstream SDK calls made by the handler. -/
structure Trace where
  factoryCalls : Nat
  handlerCalls : Nat
  upstreamCalls : Nat
deriving DecidableEq, Repr

/-- Embeds `GenericToolHandler` (tool_helpers.go).  The client factory's
outcome and JSON marshalling (`json.MarshalIndent`) are external and appear as
parameters; the trace records which collaborators were invoked. -/
def GenericToolHandler (config : ToolConfig)
    (clientFactory : Except String Client)
    (marshal : Value → Except String String)
    (req : CallToolRequest) : DispatchOutcome × Trace :=
  let args := req.getArguments
  match ValidateArguments config args with
  | some msg => (.result (newToolResultError msg), ⟨0, 0, 0⟩)
  | none =>
    match clientFactory with
    | .error e => (.hardErr ("failed to get DigitalOcean client: " ++ e), ⟨1, 0, 0⟩)
    | .ok client =>
      match config.handler client args with
      | (.panicked m, n) => (.panicked m, ⟨1, 1, n⟩)
      | (.err m, n) => (.result (newToolResultErrorFromErr "api error" m), ⟨1, 1, n⟩)
      | (.ok (.str s), n) => (.result (newToolResultText s), ⟨1, 1, n⟩)
      | (.ok v, n) =>
        match marshal v with
        | .error e => (.hardErr ("json marshal error: " ++ e), ⟨1, 1, n⟩)
        | .ok s => (.result (newToolResultText s), ⟨1, 1, n⟩)

/-- The field-filtering map literal of `handleDropletList` (tool_definitions.go)
and `formatDropletList` (droplet_tools.go), as one JSON object per droplet. -/
def dropletSummary (droplet : Droplet) : Value :=
  .obj
    [("id", .int droplet.id),
     ("name", .str droplet.name),
     ("memory", .int droplet.memory),
     ("vcpus", .int droplet.vcpus),
     ("disk", .int droplet.disk),
     ("region", droplet.region),
     ("image", droplet.image),
     ("size", droplet.size),
     ("size_slug", .str droplet.sizeSlug),
     ("backup_ids", .arr (droplet.backupIDs.map .int)),
     ("next_backup_window", droplet.nextBackupWindow),
     ("snapshot_ids", .arr (droplet.snapshotIDs.map .int)),
     ("features", .arr (droplet.features.map .str)),
     ("locked", .bool droplet.locked),
     ("status", .str droplet.status),
     ("networks", droplet.networks),
     ("created_at", .str droplet.created),
     ("kernel", droplet.kernel),
     ("tags", .arr (droplet.tags.map .str)),
     ("volume_ids", .arr (droplet.volumeIDs.map .str)),
     ("vpc_uuid", .str droplet.vpcUUID)]

/-- Embeds `handleDropletList` (tool_definitions.go): Page and PerPage default
to 1 and 50 when absent, non-numeric, or truncating to 0; one upstream List
call; the result is the filtered droplet array. -/
def handleDropletList : HandlerFunc := fun client args =>
  let page0 := GetArgumentNumber args "Page"
  let page := if page0 = 0 then 1 else page0
  let perPage0 := GetArgumentNumber args "PerPage"
  let perPage := if perPage0 = 0 then 50 else perPage0
  let opt : ListOptions := { page := page, perPage := perPage }
  match client.dropletsList opt with
  | .error e => (.err ("api error: " ++ e), 1)
  | .ok droplets => (.ok (.arr (droplets.map dropletSummary)), 1)

/-- Embeds `handleDropletGet` (tool_definitions.go). -/
def handleDropletGet : HandlerFunc := fun client args =>
  let id := GetArgumentNumber args "ID"
  if id = 0 then
    (.err "Droplet ID is required", 0)
  else
    match client.dropletsGet id with
    | .error e => (.err ("api error: " ++ e), 1)
    | .ok droplet => (.ok droplet, 1)

/-- Embeds `handleDropletCreate` (tool_definitions.go): extracts the create
request fields with the permissive helpers (absent or mis-typed values become
Go zero values), interprets SSH-key array entries by dynamic type, and issues
one upstream Create call. -/
def handleDropletCreate : HandlerFunc := fun client args =>
  let dropletName := GetArgumentString args "Name"
  let size := GetArgumentString args "Size"
  let imageID := GetArgumentNumber args "ImageID"
  let region := GetArgumentString args "Region"
  let backup := GetArgumentBoolean args "Backup"
  let monitoring := GetArgumentBoolean args "Monitoring"
  let sshKeys : List DropletCreateSSHKey :=
    match GetArgumentArray args "SSHKeys" with
    | some sshKeysRaw =>
        sshKeysRaw.foldl (fun acc key =>
          match key with
          | .num q => acc ++ [{ id := ratTrunc q, fingerprint := "" }]
          | .str s => acc ++ [{ id := 0, fingerprint := s }]
          | _ => acc) []
    | none => []
  let tags : List String :=
    match GetArgumentArray args "Tags" with
    | some tagsRaw =>
        tagsRaw.foldl (fun acc tag =>
          match tag with
          | .str s => acc ++ [s]
          | _ => acc) []
    | none => []
  let dropletCreateRequest : DropletCreateRequest :=
    { name := dropletName
      size := size
      imageID := imageID
      region := region
      backups := backup
      monitoring := monitoring
      ipv6 := false
      vpcUUID := ""
      userData := ""
      volumes := []
      withDropletAgent := none
      backupPolicy := none
      sshKeys := sshKeys
      tags := tags }
  match client.dropletsCreate dropletCreateRequest with
  | .error e => (.err ("droplet create: " ++ e), 1)
  | .ok droplet => (.ok droplet, 1)

/-- Embeds `handleDropletDelete` (tool_definitions.go): on upstream success the
handler returns the literal confirmation string. -/
def handleDropletDelete : HandlerFunc := fun client args =>
  let dropletID := GetArgumentNumber args "ID"
  if dropletID = 0 then
    (.err "Droplet ID is required", 0)
  else
    match client.dropletsDelete dropletID with
    | .error e => (.err ("api error: " ++ e), 1)
    | .ok _ => (.ok (.str "Droplet deleted successfully"), 1)

/-- Embeds `handleDropletNeighbors` (tool_definitions.go). -/
def handleDropletNeighbors : HandlerFunc := fun client args =>
  let dropletID := GetArgumentNumber args "ID"
  if dropletID = 0 then
    (.err "Droplet ID is required", 0)
  else
    match client.dropletsNeighbors dropletID with
    | .error e => (.err ("api error: " ++ e), 1)
    | .ok neighbors => (.ok neighbors, 1)

/-- Embeds `dropletListConfig` (tool_definitions.go). -/
def dropletListConfig : ToolConfig :=
  { name := "droplet-list"
    description := "List all droplets for the user. Supports pagination."
    arguments :=
      [{ name := "Page", type := .number, description := "Page number",
         required := false, defaultValue := some (.num 1) },
       { name := "PerPage", type := .number, description := "Items per page",
         required := false, defaultValue := some (.num 50) }]
    handler := handleDropletList }

/-- Embeds `dropletGetConfig` (tool_definitions.go). -/
def dropletGetConfig : ToolConfig :=
  { name := "droplet-get"
    description := "Get a droplet by its ID"
    arguments :=
      [{ name := "ID", type := .number, description := "Droplet ID",
         required := true, defaultValue := none }]
    handler := handleDropletGet }

/-- Embeds `dropletCreateConfig` (tool_definitions.go). -/
def dropletCreateConfig : ToolConfig :=
  { name := "droplet-create"
    description := "Create a new droplet"
    arguments :=
      [{ name := "Name", type := .string, description := "Name of the droplet",
         required := true, defaultValue := none },
       { name := "Size", type := .string,
         description := "Slug of the droplet size (e.g., s-1vcpu-1gb)",
         required := true, defaultValue := none },
       { name := "ImageID", type := .number,
         description := "ID of the image to use",
         required := true, defaultValue := none },
       { name := "Region", type := .string,
         description := "Slug of the region (e.g., nyc3)",
         required := true, defaultValue := none },
       { name := "Backup", type := .boolean,
         description := "Whether to enable backups",
         required := false, defaultValue := some (.bool false) },
       { name := "Monitoring", type := .boolean,
         description := "Whether to enable monitoring",
         required := false, defaultValue := some (.bool false) },
       { name := "SSHKeys", type := .array,
         description := "Array of SSH key IDs (numbers) or fingerprints (strings) to add to the droplet",
         required := false, defaultValue := none },
       { name := "Tags", type := .array,
         description := "Array of tag names to apply to the droplet",
         required := false, defaultValue := none }]
    handler := handleDropletCreate }

/-- Embeds `dropletDeleteConfig` (tool_definitions.go). -/
def dropletDeleteConfig : ToolConfig :=
  { name := "droplet-delete"
    description := "Delete a droplet"
    arguments :=
      [{ name := "ID", type := .number,
         description := "ID of the droplet to delete",
         required := true, defaultValue := none }]
    handler := handleDropletDelete }

/-- Embeds `dropletNeighborsConfig` (tool_definitions.go). -/
def dropletNeighborsConfig : ToolConfig :=
  { name := "droplet-neighbors"
    description := "Get a droplet's neighbors"
    arguments :=
      [{ name := "ID", type := .number, description := "ID of the droplet",
         required := true, defaultValue := none }]
    handler := handleDropletNeighbors }

/-- One entry of the advertised schema's properties map
(`map[string]interface\x7b\x7d` with keys "type", "description" and, when the
descriptor has a non-nil default, "default"). -/
structure PropertyRecord where
  type : String
  description : String
  default : Option Value

/-- Embeds the part of `mcp.Tool` that `BuildMCPTool` populates.  The Go
properties map is represented as an association list; Go only omits the
`Required` field of the schema when the list is empty, which the list value
`[]` itself records. -/
structure MCPTool where
  name : String
  description : String
  properties : List (String × PropertyRecord)
  required : List String

/-- Go map assignment `properties[name] = prop`: replace an existing key or
append a new one. -/
def insertProp : List (String × PropertyRecord) → String → PropertyRecord →
    List (String × PropertyRecord)
  | [], name, prop => [(name, prop)]
  | (k, v) :: rest, name, prop =>
      if k = name then (k, prop) :: rest else (k, v) :: insertProp rest name prop

/-- Go map indexing of the properties map. -/
def lookupProp : List (String × PropertyRecord) → String → Option PropertyRecord
  | [], _ => none
  | (k, v) :: rest, name => if k = name then some v else lookupProp rest name

/-- Loop of `BuildMCPTool` (droplet_tools.go): builds the properties map and
appends required argument names in declaration order. -/
def buildLoop : List ArgumentConfig → List (String × PropertyRecord) →
    List String → List (String × PropertyRecord) × List String
  | [], properties, required => (properties, required)
  | arg :: rest, properties, required =>
      let prop : PropertyRecord :=
        { type := typeString arg.type
          description := arg.description
          default := arg.defaultValue }
      buildLoop rest (insertProp properties arg.name prop)
        (if arg.required then required ++ [arg.name] else required)

/-- Embeds `ToolConfig.BuildMCPTool` (droplet_tools.go). -/
def BuildMCPTool (tc : ToolConfig) : MCPTool :=
  let built := buildLoop tc.arguments [] []
  { name := tc.name
    description := tc.description
    properties := built.1
    required := built.2 }

/-- Invocation counts for the legacy handlers, which call the client factory
and the SDK directly. -/
structure LegacyTrace where
  factoryCalls : Nat
  upstreamCalls : Nat
deriving DecidableEq, Repr

/-- Embeds the legacy helper `getListOptions` (droplet_tools.go): a failed
`.(float64)` assertion with the comma-ok idiom falls back to the default, so
only a genuine float64 value is used. -/
def getListOptions (req : CallToolRequest) : ListOptions :=
  let page : ℚ :=
    match lookupArg req.getArguments "Page" with
    | some (.num q) => q
    | _ => 1
  let perPage : ℚ :=
    match lookupArg req.getArguments "PerPage" with
    | some (.num q) => q
    | _ => 50
  { page := ratTrunc page, perPage := ratTrunc perPage }

/-- Embeds `parseStringArray` (droplet_tools.go); the Go `raw == nil` check is
the `null` case. -/
def parseStringArray (raw : Value) : Except String (List String) :=
  match raw with
  | .null => .error "value must be an array of strings"
  | .arr values =>
      values.foldlM (fun acc val =>
        match val with
        | .str s => if s = "" then .ok acc else .ok (acc ++ [s])
        | _ => .error "value must contain only strings") []
  | _ => .error "value must be an array"

/-- Embeds `parseSSHKeys` (droplet_tools.go): anything but an array yields nil;
numeric entries become IDs, non-empty string entries become fingerprints, and
other entries are skipped. -/
def parseSSHKeys (raw : Option Value) : List DropletCreateSSHKey :=
  match raw with
  | some (.arr values) =>
      values.foldl (fun acc key =>
        match key with
        | .num q => acc ++ [{ id := ratTrunc q, fingerprint := "" }]
        | .str s => if s = "" then acc else acc ++ [{ id := 0, fingerprint := s }]
        | _ => acc) []
  | _ => []

/-- Embeds `parseTags` (droplet_tools.go). -/
def parseTags (raw : Option Value) : List String :=
  match raw with
  | some (.arr values) =>
      values.foldl (fun acc tag =>
        match tag with
        | .str s => if s = "" then acc else acc ++ [s]
        | _ => acc) []
  | _ => []

/-- Embeds the legacy `DropletTool.createDroplet` (droplet_tools.go): the four
required arguments are read with unchecked type assertions (a missing or
mis-typed value panics), optional arguments fall back to zero values, a
non-empty BackupPolicy string is unmarshalled before the client factory is
invoked, and exactly one upstream Create call follows.  `unmarshalPolicy`
stands for `json.Unmarshal` into `godo.DropletBackupPolicyRequest` and
`marshal` for `json.MarshalIndent`, both external. -/
def createDroplet (clientFactory : Except String Client)
    (unmarshalPolicy : String → Except String DropletBackupPolicyRequest)
    (marshal : Value → Except String String)
    (req : CallToolRequest) : DispatchOutcome × LegacyTrace :=
  let args := req.getArguments
  match lookupArg args "Name" with
  | some (.str dropletName) =>
    match lookupArg args "Size" with
    | some (.str size) =>
      match lookupArg args "ImageID" with
      | some (.num imageID) =>
        match lookupArg args "Region" with
        | some (.str region) =>
          let backup := GetArgumentBoolean args "Backup"
          let monitoring := GetArgumentBoolean args "Monitoring"
          let ipv6 := GetArgumentBoolean args "IPv6"
          let vpcuuid := GetArgumentString args "VPCUUID"
          let userdata := GetArgumentString args "UserData"
          let withAgentPtr : Option Bool :=
            match lookupArg args "WithDropletAgent" with
            | some (.bool b) => some b
            | _ => none
          let policyJSON := GetArgumentString args "BackupPolicy"
          let sshKeys := parseSSHKeys (lookupArg args "SSHKeys")
          let tags := parseTags (lookupArg args "Tags")
          let volumes : List String :=
            match lookupArg args "Volumes" with
            | some .null => []
            | some v =>
                match parseStringArray v with
                | .ok vs => vs
                | .error _ => []
            | none => []
          let finish := fun (policyPtr : Option DropletBackupPolicyRequest) =>
            let dropletCreateRequest : DropletCreateRequest :=
              { name := dropletName
                size := size
                imageID := ratTrunc imageID
                region := region
                backups := backup
                monitoring := monitoring
                ipv6 := ipv6
                vpcUUID := vpcuuid
                userData := userdata
                volumes := volumes
                withDropletAgent := withAgentPtr
                backupPolicy := policyPtr
                sshKeys := sshKeys
                tags := tags }
            match clientFactory with
            | .error e =>
                (DispatchOutcome.hardErr ("failed to get DigitalOcean client: " ++ e),
                 (⟨1, 0⟩ : LegacyTrace))
            | .ok client =>
              match client.dropletsCreate dropletCreateRequest with
              | .error e => (.result (newToolResultErrorFromErr "droplet create" e), ⟨1, 1⟩)
              | .ok droplet =>
                match marshal droplet with
                | .error e => (.result (newToolResultErrorFromErr "json marshal" e), ⟨1, 1⟩)
                | .ok s => (.result (newToolResultText s), ⟨1, 1⟩)
          if policyJSON = "" then
            finish none
          else
            match unmarshalPolicy policyJSON with
            | .error e =>
                (.result (newToolResultErrorFromErr "invalid backup policy json" e), ⟨0, 0⟩)
            | .ok policyReq => finish (some policyReq)
        | _ => (.panicked "interface conversion: Region is not a string", ⟨0, 0⟩)
      | _ => (.panicked "interface conversion: ImageID is not a float64", ⟨0, 0⟩)
    | _ => (.panicked "interface conversion: Size is not a string", ⟨0, 0⟩)
  | _ => (.panicked "interface conversion: Name is not a string", ⟨0, 0⟩)

/-- Embeds the legacy `DropletTool.getDropletNeighbors` (droplet_tools.go):
the ID argument is read with an unchecked `.(float64)` assertion. -/
def getDropletNeighbors (clientFactory : Except String Client)
    (marshal : Value → Except String String)
    (req : CallToolRequest) : DispatchOutcome × LegacyTrace :=
  match lookupArg req.getArguments "ID" with
  | some (.num dropletID) =>
    match clientFactory with
    | .error e => (.hardErr ("failed to get DigitalOcean client: " ++ e), ⟨1, 0⟩)
    | .ok client =>
      match client.dropletsNeighbors (ratTrunc dropletID) with
      | .error e => (.result (newToolResultErrorFromErr "api error" e), ⟨1, 1⟩)
      | .ok neighbors =>
        match marshal neighbors with
        | .error e => (.hardErr ("marshal error: " ++ e), ⟨1, 1⟩)
        | .ok s => (.result (newToolResultText s), ⟨1, 1⟩)
  | _ => (.panicked "interface conversion: ID is not a float64", ⟨0, 0⟩)

/-- Embeds the legacy `DropletTool.enablePrivateNetworking` (droplet_tools.go):
the ID argument is read with an unchecked `.(float64)` assertion. -/
def enablePrivateNetworking (clientFactory : Except String Client)
    (marshal : Value → Except String String)
    (req : CallToolRequest) : DispatchOutcome × LegacyTrace :=
  match lookupArg req.getArguments "ID" with
  | some (.num dropletID) =>
    match clientFactory with
    | .error e => (.hardErr ("failed to get DigitalOcean client: " ++ e), ⟨1, 0⟩)
    | .ok client =>
      match client.dropletActionsEnablePrivateNetworking (ratTrunc dropletID) with
      | .error e => (.result (newToolResultErrorFromErr "api error" e), ⟨1, 1⟩)
      | .ok action =>
        match marshal action with
        | .error e => (.hardErr ("marshal error: " ++ e), ⟨1, 1⟩)
        | .ok s => (.result (newToolResultText s), ⟨1, 1⟩)
  | _ => (.panicked "interface conversion: ID is not a float64", ⟨0, 0⟩)

/-- A stubbed upstream client whose every call succeeds, mirroring the mock
setups of the repository's unit tests. -/
def stubClient : Client :=
  { dropletsGet := fun _ => .ok (.obj [("id", .int 123)])
    dropletsDelete := fun _ => .ok ()
    dropletsList := fun _ => .ok []
    dropletsNeighbors := fun _ => .ok (.arr [])
    dropletsCreate := fun _ => .ok (.obj [("id", .int 123), ("name", .str "test")])
    dropletActionsEnablePrivateNetworking := fun _ => .ok (.obj [("id", .int 1)]) }

/-- A marshalling stub that always succeeds. -/
def stubMarshal : Value → Except String String := fun _ => .ok "serialized"

/-- The property of being a stubbed upstream client configured to succeed on
every call. -/
def SucceedingClient (c : Client) : Prop :=
  (∀ i, ∃ v, c.dropletsGet i = .ok v) ∧
  (∀ i, c.dropletsDelete i = .ok ()) ∧
  (∀ o, ∃ ds, c.dropletsList o = .ok ds) ∧
  (∀ i, ∃ v, c.dropletsNeighbors i = .ok v) ∧
  (∀ r, ∃ v, c.dropletsCreate r = .ok v) ∧
  (∀ i, ∃ v, c.dropletActionsEnablePrivateNetworking i = .ok v)

/-- A marshalling function that succeeds on every value, as
`json.MarshalIndent` does on every value the embedded handlers return. -/
def TotalMarshal (marshal : Value → Except String String) : Prop :=
  ∀ v, ∃ s, marshal v = .ok s

theorem stubClient_succeeds : SucceedingClient stubClient :=
  ⟨fun _ => ⟨_, rfl⟩, fun _ => rfl, fun _ => ⟨_, rfl⟩, fun _ => ⟨_, rfl⟩,
   fun _ => ⟨_, rfl⟩, fun _ => ⟨_, rfl⟩⟩

theorem stubMarshal_total : TotalMarshal stubMarshal :=
  fun _ => ⟨_, rfl⟩

/-! Helper lemmas shared by several claims. -/

/-- The validator loop returns the message of the first argument, in
declaration order, that is required and absent. -/
theorem validateLoop_eq_find (args : Args) (l : List ArgumentConfig) :
    validateLoop args l =
      (l.find? (fun a => a.required && (lookupArg args a.name).isNone)).map
        (fun a => "missing required argument: " ++ a.name) := by
  induction l with
  | nil => rfl
  | cons a rest ih =>
    by_cases h : (a.required && (lookupArg args a.name).isNone) = true
    · simp [validateLoop, List.find?_cons_of_pos, h]
    · simp only [Bool.not_eq_true] at h
      simp [validateLoop, List.find?_cons_of_neg, h, ih]

/-- `List.find?` only depends on the predicate's values on the list. -/
theorem find?_congr {α : Type} (p q : α → Bool) (l : List α)
    (h : ∀ a ∈ l, p a = q a) : l.find? p = l.find? q := by
  induction l with
  | nil => rfl
  | cons a rest ih =>
    have ha := h a (List.mem_cons_self a rest)
    by_cases hp : p a = true
    · rw [List.find?_cons_of_pos _ hp, List.find?_cons_of_pos _ (ha ▸ hp)]
    · simp only [Bool.not_eq_true] at hp
      rw [List.find?_cons_of_neg _ (by simp [hp]), List.find?_cons_of_neg _ (by simp [ha ▸ hp])]
      exact ih fun b hb => h b (List.mem_cons_of_mem a hb)

/-- When the validator finds a missing required argument, the dispatcher stops
with the corresponding error result and a zeroed trace. -/
theorem dispatch_stops_on_missing (config : ToolConfig)
    (clientFactory : Except String Client) (marshal : Value → Except String String)
    (req : CallToolRequest) (a : ArgumentConfig)
    (h : config.arguments.find?
        (fun arg => arg.required && (lookupArg req.getArguments arg.name).isNone) = some a) :
    GenericToolHandler config clientFactory marshal req =
      (.result { isError := true, text := "missing required argument: " ++ a.name },
       ⟨0, 0, 0⟩) := by
  simp only [GenericToolHandler, ValidateArguments]
  rw [validateLoop_eq_find, h]
  rfl

/-- If some element of the list satisfies the predicate and all satisfying
elements share its name, `find?` yields an element with that name. -/
theorem find?_some_name (l : List ArgumentConfig) (p : ArgumentConfig → Bool)
    (a : ArgumentConfig) (ha : a ∈ l) (hpa : p a = true)
    (hname : ∀ b ∈ l, p b = true → b.name = a.name) :
    ∃ c, l.find? p = some c ∧ c.name = a.name := by
  induction l with
  | nil => cases ha
  | cons x rest ih =>
    by_cases hx : p x = true
    · exact ⟨x, List.find?_cons_of_pos _ hx, hname x (List.mem_cons_self x rest) hx⟩
    · simp only [Bool.not_eq_true] at hx
      rcases List.mem_cons.mp ha with rfl | ha2
      · rw [hpa] at hx; cases hx
      · rcases ih ha2 (fun b hb hpb => hname b (List.mem_cons_of_mem x hb) hpb) with
          ⟨c, hc, hcn⟩
        exact ⟨c, by rw [List.find?_cons_of_neg _ (by simp [hx])]; exact hc, hcn⟩

/-- Claim C1: when the inbound request omits at least one required argument,
the generic dispatcher returns a normal (nil hard error) result with the error
flag set and message "missing required argument: name", where name is the
first required argument in declaration order absent from the map, and it
invokes neither the client factory nor the handler (trace all zero). -/
theorem c1_dispatcher_missing_required (config : ToolConfig)
    (clientFactory : Except String Client) (marshal : Value → Except String String)
    (req : CallToolRequest) (a : ArgumentConfig)
    (h : config.arguments.find?
        (fun arg => arg.required && (lookupArg req.getArguments arg.name).isNone) = some a) :
    GenericToolHandler config clientFactory marshal req =
      (.result { isError := true, text := "missing required argument: " ++ a.name },
       { factoryCalls := 0, handlerCalls := 0, upstreamCalls := 0 }) :=
  dispatch_stops_on_missing config clientFactory marshal req a h

theorem c1_witness :
    (dropletGetConfig.arguments.find?
        (fun arg => arg.required && (lookupArg (CallToolRequest.mk []).getArguments arg.name).isNone) =
      some { name := "ID", type := .number, description := "Droplet ID",
             required := true, defaultValue := none }) ∧
    GenericToolHandler dropletGetConfig (.ok stubClient) stubMarshal ⟨[]⟩ =
      (.result { isError := true, text := "missing required argument: ID" },
       { factoryCalls := 0, handlerCalls := 0, upstreamCalls := 0 }) :=
  ⟨rfl, c1_dispatcher_missing_required dropletGetConfig (.ok stubClient) stubMarshal ⟨[]⟩
      { name := "ID", type := .number, description := "Droplet ID",
        required := true, defaultValue := none } rfl⟩

/-- Claim C9: validation succeeds exactly when every required argument name is
a key of the map; the verdict (including which error is produced) depends only
on which keys are present, not on the values or on extra keys. -/
theorem c9_validation_presence_only (tc : ToolConfig) (args : Args) :
    (ValidateArguments tc args = none ↔
      ∀ arg ∈ tc.arguments, arg.required = true → (lookupArg args arg.name).isSome = true) ∧
    (∀ args2 : Args,
      (∀ arg ∈ tc.arguments,
        (lookupArg args arg.name).isSome = (lookupArg args2 arg.name).isSome) →
      ValidateArguments tc args = ValidateArguments tc args2) := by
  constructor
  · rw [ValidateArguments, validateLoop_eq_find, Option.map_eq_none', List.find?_eq_none]
    apply forall_congr'
    intro a
    apply imp_congr_right
    intro _
    cases hr : a.required <;> cases hn : lookupArg args a.name <;> simp [hr, hn]
  · intro args2 hsame
    rw [ValidateArguments, ValidateArguments, validateLoop_eq_find, validateLoop_eq_find]
    congr 1
    apply find?_congr
    intro a ha
    rw [← Option.bnot_isSome, ← Option.bnot_isSome, hsame a ha]

theorem c9_witness :
    (ValidateArguments dropletGetConfig [("ID", Value.str "x")] = none ↔
      ∀ arg ∈ dropletGetConfig.arguments, arg.required = true →
        (lookupArg [("ID", Value.str "x")] arg.name).isSome = true) ∧
    ValidateArguments dropletGetConfig [("ID", Value.str "x")] =
      ValidateArguments dropletGetConfig [("ID", Value.bool true), ("Extra", Value.null)] :=
  ⟨(c9_validation_presence_only dropletGetConfig [("ID", Value.str "x")]).1,
   (c9_validation_presence_only dropletGetConfig [("ID", Value.str "x")]).2
     [("ID", Value.bool true), ("Extra", Value.null)]
     (by
        intro arg harg
        rcases List.mem_singleton.mp harg with rfl
        rfl)⟩

/-- Claim C4: the dispatcher's two-tier error taxonomy.  A handler error
becomes a normal error-flagged result prefixed "api error" with nil hard
error; a failing client factory or a failing JSON serialization becomes a nil
result with a non-nil hard error. -/
theorem c4_error_taxonomy :
    (∀ (config : ToolConfig) (client : Client) (marshal : Value → Except String String)
       (req : CallToolRequest) (m : String) (n : Nat),
       ValidateArguments config req.getArguments = none →
       config.handler client req.getArguments = (.err m, n) →
       GenericToolHandler config (.ok client) marshal req =
         (.result { isError := true, text := "api error: " ++ m },
          { factoryCalls := 1, handlerCalls := 1, upstreamCalls := n })) ∧
    (∀ (config : ToolConfig) (e : String) (marshal : Value → Except String String)
       (req : CallToolRequest),
       ValidateArguments config req.getArguments = none →
       GenericToolHandler config (.error e) marshal req =
         (.hardErr ("failed to get DigitalOcean client: " ++ e),
          { factoryCalls := 1, handlerCalls := 0, upstreamCalls := 0 })) ∧
    (∀ (config : ToolConfig) (client : Client) (marshal : Value → Except String String)
       (req : CallToolRequest) (v : Value) (n : Nat) (e : String),
       ValidateArguments config req.getArguments = none →
       config.handler client req.getArguments = (.ok v, n) →
       (∀ s, v ≠ .str s) →
       marshal v = .error e →
       GenericToolHandler config (.ok client) marshal req =
         (.hardErr ("json marshal error: " ++ e),
          { factoryCalls := 1, handlerCalls := 1, upstreamCalls := n })) := by
  refine ⟨?_, ?_, ?_⟩
  · intro config client marshal req m n hval hh
    simp only [GenericToolHandler, hval, hh]
    rfl
  · intro config e marshal req hval
    simp only [GenericToolHandler, hval]
  · intro config client marshal req v n e hval hh hns hm
    simp only [GenericToolHandler, hval, hh]
    cases v with
    | str s => exact absurd rfl (hns s)
    | num q => simp [hm]
    | int k => simp [hm]
    | bool b => simp [hm]
    | arr elems => simp [hm]
    | obj fields => simp [hm]
    | null => simp [hm]

/-- A handler that returns the error "boom" without an upstream call, used to
instantiate the taxonomy claims. -/
def erringHandlerConfig : ToolConfig :=
  { name := "erring"
    description := "test"
    arguments := []
    handler := fun _ _ => (.err "boom", 0) }

/-- A handler that returns a non-string value, used to instantiate the
serialization claims. -/
def objHandlerConfig : ToolConfig :=
  { name := "obj"
    description := "test"
    arguments := []
    handler := fun _ _ => (.ok (.obj [("id", .int 7)]), 1) }

/-- A marshalling stub that always fails. -/
def failMarshal : Value → Except String String := fun _ => .error "cycle"

theorem c4_witness :
    GenericToolHandler erringHandlerConfig (.ok stubClient) stubMarshal ⟨[]⟩ =
      (.result { isError := true, text := "api error: boom" },
       { factoryCalls := 1, handlerCalls := 1, upstreamCalls := 0 }) ∧
    GenericToolHandler erringHandlerConfig (.error "no token") stubMarshal ⟨[]⟩ =
      (.hardErr ("failed to get DigitalOcean client: " ++ "no token"),
       { factoryCalls := 1, handlerCalls := 0, upstreamCalls := 0 }) ∧
    GenericToolHandler objHandlerConfig (.ok stubClient) failMarshal ⟨[]⟩ =
      (.hardErr ("json marshal error: " ++ "cycle"),
       { factoryCalls := 1, handlerCalls := 1, upstreamCalls := 1 }) :=
  ⟨c4_error_taxonomy.1 erringHandlerConfig stubClient stubMarshal ⟨[]⟩ "boom" 0 rfl rfl,
   c4_error_taxonomy.2.1 erringHandlerConfig "no token" stubMarshal ⟨[]⟩ rfl,
   c4_error_taxonomy.2.2 objHandlerConfig stubClient failMarshal ⟨[]⟩
     (.obj [("id", .int 7)]) 1 "cycle" rfl rfl (fun s h => by cases h) rfl⟩

/-- Claim C5: when the handler succeeds, a string value is returned verbatim
as the text payload of a non-error result, and a non-string value's payload is
the value's (indented JSON) serialization. -/
theorem c5_success_formatting :
    (∀ (config : ToolConfig) (client : Client) (marshal : Value → Except String String)
       (req : CallToolRequest) (s : String) (n : Nat),
       ValidateArguments config req.getArguments = none →
       config.handler client req.getArguments = (.ok (.str s), n) →
       GenericToolHandler config (.ok client) marshal req =
         (.result { isError := false, text := s },
          { factoryCalls := 1, handlerCalls := 1, upstreamCalls := n })) ∧
    (∀ (config : ToolConfig) (client : Client) (marshal : Value → Except String String)
       (req : CallToolRequest) (v : Value) (j : String) (n : Nat),
       ValidateArguments config req.getArguments = none →
       config.handler client req.getArguments = (.ok v, n) →
       (∀ s, v ≠ .str s) →
       marshal v = .ok j →
       GenericToolHandler config (.ok client) marshal req =
         (.result { isError := false, text := j },
          { factoryCalls := 1, handlerCalls := 1, upstreamCalls := n })) := by
  constructor
  · intro config client marshal req s n hval hh
    simp only [GenericToolHandler, hval, hh]
    rfl
  · intro config client marshal req v j n hval hh hns hm
    simp only [GenericToolHandler, hval, hh]
    cases v with
    | str s => exact absurd rfl (hns s)
    | num q => simp [hm]; rfl
    | int k => simp [hm]; rfl
    | bool b => simp [hm]; rfl
    | arr elems => simp [hm]; rfl
    | obj fields => simp [hm]; rfl
    | null => simp [hm]; rfl

/-- A handler that returns a fixed string value. -/
def strHandlerConfig : ToolConfig :=
  { name := "confirmer"
    description := "test"
    arguments := []
    handler := fun _ _ => (.ok (.str "Droplet deleted successfully"), 1) }

theorem c5_witness :
    GenericToolHandler strHandlerConfig (.ok stubClient) stubMarshal ⟨[]⟩ =
      (.result { isError := false, text := "Droplet deleted successfully" },
       { factoryCalls := 1, handlerCalls := 1, upstreamCalls := 1 }) ∧
    GenericToolHandler objHandlerConfig (.ok stubClient) stubMarshal ⟨[]⟩ =
      (.result { isError := false, text := "serialized" },
       { factoryCalls := 1, handlerCalls := 1, upstreamCalls := 1 }) :=
  ⟨c5_success_formatting.1 strHandlerConfig stubClient stubMarshal ⟨[]⟩
     "Droplet deleted successfully" 1 rfl rfl,
   c5_success_formatting.2 objHandlerConfig stubClient stubMarshal ⟨[]⟩
     (.obj [("id", .int 7)]) "serialized" 1 rfl rfl (fun s h => by cases h) rfl⟩

/-- True exactly on the `panicked` handler outcome. -/
def HandlerOutcome.isPanic : HandlerOutcome → Bool
  | .panicked _ => true
  | _ => false

theorem handleDropletList_no_panic (client : Client) (args : Args) :
    (handleDropletList client args).1.isPanic = false := by
  simp only [handleDropletList]
  split <;> rfl

theorem handleDropletGet_no_panic (client : Client) (args : Args) :
    (handleDropletGet client args).1.isPanic = false := by
  simp only [handleDropletGet]
  split
  · rfl
  · split <;> rfl

theorem handleDropletCreate_no_panic (client : Client) (args : Args) :
    (handleDropletCreate client args).1.isPanic = false := by
  simp only [handleDropletCreate]
  split <;> rfl

theorem handleDropletDelete_no_panic (client : Client) (args : Args) :
    (handleDropletDelete client args).1.isPanic = false := by
  simp only [handleDropletDelete]
  split
  · rfl
  · split <;> rfl

theorem handleDropletNeighbors_no_panic (client : Client) (args : Args) :
    (handleDropletNeighbors client args).1.isPanic = false := by
  simp only [handleDropletNeighbors]
  split
  · rfl
  · split <;> rfl

/-- A dispatch through `GenericToolHandler` panics only if the wrapped handler
panics. -/
theorem dispatch_no_panic (config : ToolConfig)
    (hh : ∀ client args, (config.handler client args).1.isPanic = false)
    (clientFactory : Except String Client) (marshal : Value → Except String String)
    (req : CallToolRequest) :
    (GenericToolHandler config clientFactory marshal req).1.isPanic = false := by
  simp only [GenericToolHandler]
  split
  · rfl
  · split
    · rfl
    · next client =>
      split
      · next m n heq =>
        have h2 := hh client req.getArguments
        rw [heq] at h2
        simp [HandlerOutcome.isPanic] at h2
      · rfl
      · rfl
      · split <;> rfl

/-- Claim C2, amended: the handlers reached through the generic dispatcher
(the five ToolConfig-based tools) never panic, for every argument map, factory
outcome and upstream outcome; but the claim as stated is false for the legacy
handlers that read arguments with unchecked type assertions (see the
counterexample). -/
theorem c2_amended_config_handlers_never_panic
    (clientFactory : Except String Client) (marshal : Value → Except String String)
    (req : CallToolRequest) :
    (GenericToolHandler dropletListConfig clientFactory marshal req).1.isPanic = false ∧
    (GenericToolHandler dropletGetConfig clientFactory marshal req).1.isPanic = false ∧
    (GenericToolHandler dropletCreateConfig clientFactory marshal req).1.isPanic = false ∧
    (GenericToolHandler dropletDeleteConfig clientFactory marshal req).1.isPanic = false ∧
    (GenericToolHandler dropletNeighborsConfig clientFactory marshal req).1.isPanic = false :=
  ⟨dispatch_no_panic _ handleDropletList_no_panic clientFactory marshal req,
   dispatch_no_panic _ handleDropletGet_no_panic clientFactory marshal req,
   dispatch_no_panic _ handleDropletCreate_no_panic clientFactory marshal req,
   dispatch_no_panic _ handleDropletDelete_no_panic clientFactory marshal req,
   dispatch_no_panic _ handleDropletNeighbors_no_panic clientFactory marshal req⟩

/-- Claim C2, counterexample: the legacy handlers `enablePrivateNetworking`
and `getDropletNeighbors` read the ID argument with an unchecked `.(float64)`
assertion; with the argument absent (or a string), the invocation panics — an
expected failure mode (missing argument) producing a panic rather than an
error value. -/
theorem c2_counterexample :
    (enablePrivateNetworking (.ok stubClient) stubMarshal ⟨[]⟩).1.isPanic = true ∧
    (getDropletNeighbors (.ok stubClient) stubMarshal
        ⟨[("ID", Value.str "123")]⟩).1.isPanic = true :=
  ⟨rfl, rfl⟩

/-- Claim C6: with neither Page nor PerPage present, the pagination defaults
produce exactly the upstream list-options (Page=1, PerPage=50) that explicit
arguments Page=1, PerPage=50 produce — both for the legacy `getListOptions`
helper and for `handleDropletList` (whose entire invocation result then
coincides for every client). -/
theorem c6_pagination_defaults :
    (∀ args : Args,
       lookupArg args "Page" = none → lookupArg args "PerPage" = none →
       getListOptions ⟨args⟩ =
           getListOptions ⟨[("Page", Value.num 1), ("PerPage", Value.num 50)]⟩ ∧
         getListOptions ⟨args⟩ = { page := 1, perPage := 50 }) ∧
    (∀ (client : Client) (args : Args),
       lookupArg args "Page" = none → lookupArg args "PerPage" = none →
       handleDropletList client
           (("Page", Value.num 1) :: ("PerPage", Value.num 50) :: args) =
         handleDropletList client args) := by
  have t1 : ratTrunc 1 = 1 := by decide
  have t50 : ratTrunc 50 = 50 := by decide
  constructor
  · intro args h1 h2
    constructor
    · simp only [getListOptions, CallToolRequest.getArguments, h1, h2]
      rfl
    · simp only [getListOptions, CallToolRequest.getArguments, h1, h2]
      rw [show (ListOptions.mk (ratTrunc 1) (ratTrunc 50)) =
            (ListOptions.mk 1 50) by rw [t1, t50]]
  · intro client args h1 h2
    have l1 : lookupArg (("Page", Value.num 1) :: ("PerPage", Value.num 50) :: args)
        "Page" = some (Value.num 1) := rfl
    have l2 : lookupArg (("Page", Value.num 1) :: ("PerPage", Value.num 50) :: args)
        "PerPage" = some (Value.num 50) := rfl
    simp only [handleDropletList, GetArgumentNumber, l1, l2, h1, h2, t1, t50]
    norm_num

theorem c6_witness :
    (lookupArg [] "Page" = none ∧ lookupArg [] "PerPage" = none) ∧
    getListOptions ⟨[]⟩ =
        getListOptions ⟨[("Page", Value.num 1), ("PerPage", Value.num 50)]⟩ ∧
      getListOptions ⟨[]⟩ = { page := 1, perPage := 50 } ∧
    handleDropletList stubClient
        [("Page", Value.num 1), ("PerPage", Value.num 50)] =
      handleDropletList stubClient [] :=
  ⟨⟨rfl, rfl⟩,
   (c6_pagination_defaults.1 [] rfl rfl).1,
   (c6_pagination_defaults.1 [] rfl rfl).2,
   c6_pagination_defaults.2 stubClient [] rfl rfl⟩

/-- Condition of claim C10 on a present ID value: not numeric (neither a
float64 nor an int), or numeric with integer truncation 0. -/
def idValueExtractsToZero : Value → Bool
  | .num q => ratTrunc q == 0
  | .int n => n == 0
  | _ => true

/-- Claim C10: for `handleDropletGet` and `handleDropletDelete`, an ID that is
present but non-numeric or truncating to 0 passes required-argument
validation yet produces the handler error "Droplet ID is required" with no
upstream call — exactly the behaviour of an absent ID. -/
theorem c10_zero_id_indistinguishable (args : Args) (v : Value) (client : Client)
    (hpresent : lookupArg args "ID" = some v)
    (hzero : idValueExtractsToZero v = true) :
    ValidateArguments dropletGetConfig args = none ∧
    ValidateArguments dropletDeleteConfig args = none ∧
    handleDropletGet client args = (.err "Droplet ID is required", 0) ∧
    handleDropletDelete client args = (.err "Droplet ID is required", 0) ∧
    (∀ args2 : Args, lookupArg args2 "ID" = none →
       handleDropletGet client args2 = (.err "Droplet ID is required", 0) ∧
       handleDropletDelete client args2 = (.err "Droplet ID is required", 0)) := by
  have hget : GetArgumentNumber args "ID" = 0 := by
    rw [GetArgumentNumber, hpresent]
    cases v with
    | num q => simpa [idValueExtractsToZero] using hzero
    | int n => simpa [idValueExtractsToZero] using hzero
    | str s => rfl
    | bool b => rfl
    | arr elems => rfl
    | obj fields => rfl
    | null => rfl
  refine ⟨?_, ?_, ?_, ?_, ?_⟩
  · simp [ValidateArguments, validateLoop, dropletGetConfig, hpresent]
  · simp [ValidateArguments, validateLoop, dropletDeleteConfig, hpresent]
  · simp [handleDropletGet, hget]
  · simp [handleDropletDelete, hget]
  · intro args2 habsent
    have hget2 : GetArgumentNumber args2 "ID" = 0 := by
      rw [GetArgumentNumber, habsent]
    exact ⟨by simp [handleDropletGet, hget2], by simp [handleDropletDelete, hget2]⟩

theorem c10_witness :
    lookupArg [("ID", Value.str "abc")] "ID" = some (Value.str "abc") ∧
    idValueExtractsToZero (Value.str "abc") = true ∧
    ValidateArguments dropletGetConfig [("ID", Value.str "abc")] = none ∧
    handleDropletGet stubClient [("ID", Value.str "abc")] =
      (.err "Droplet ID is required", 0) ∧
    handleDropletDelete stubClient [("ID", Value.str "abc")] =
      (.err "Droplet ID is required", 0) :=
  ⟨rfl, rfl,
   (c10_zero_id_indistinguishable [("ID", Value.str "abc")] (Value.str "abc")
      stubClient rfl rfl).1,
   (c10_zero_id_indistinguishable [("ID", Value.str "abc")] (Value.str "abc")
      stubClient rfl rfl).2.2.1,
   (c10_zero_id_indistinguishable [("ID", Value.str "abc")] (Value.str "abc")
      stubClient rfl rfl).2.2.2.1⟩

/-- Claim C7: in the legacy `createDroplet`, a BackupPolicy argument that is a
non-empty string rejected by the JSON unmarshaller produces an error-flagged
result whose message indicates invalid backup policy JSON, with the client
factory and the upstream never invoked (trace zero).  The hypotheses fix the
four required arguments to present, correctly typed values, as any invocation
reaching the policy parse has them. -/
theorem c7_invalid_backup_policy (clientFactory : Except String Client)
    (unmarshalPolicy : String → Except String DropletBackupPolicyRequest)
    (marshal : Value → Except String String) (args : Args)
    (nameS sizeS regionS : String) (imageQ : ℚ) (pj e : String)
    (hn : lookupArg args "Name" = some (.str nameS))
    (hs : lookupArg args "Size" = some (.str sizeS))
    (hi : lookupArg args "ImageID" = some (.num imageQ))
    (hr : lookupArg args "Region" = some (.str regionS))
    (hp : lookupArg args "BackupPolicy" = some (.str pj))
    (hne : pj ≠ "")
    (hu : unmarshalPolicy pj = .error e) :
    createDroplet clientFactory unmarshalPolicy marshal ⟨args⟩ =
      (.result { isError := true, text := "invalid backup policy json: " ++ e },
       { factoryCalls := 0, upstreamCalls := 0 }) := by
  simp only [createDroplet, CallToolRequest.getArguments, GetArgumentString,
    hn, hs, hi, hr, hp, hu, if_neg hne]
  rfl

theorem c7_witness :
    lookupArg [("Name", Value.str "test"), ("Size", Value.str "s-1vcpu-1gb"),
        ("ImageID", Value.num 456), ("Region", Value.str "nyc1"),
        ("BackupPolicy", Value.str "not json")] "BackupPolicy" =
      some (Value.str "not json") ∧
    ("not json" : String) ≠ "" ∧
    createDroplet (.ok stubClient)
        (fun _ => .error "unexpected end of JSON input") stubMarshal
        ⟨[("Name", Value.str "test"), ("Size", Value.str "s-1vcpu-1gb"),
          ("ImageID", Value.num 456), ("Region", Value.str "nyc1"),
          ("BackupPolicy", Value.str "not json")]⟩ =
      (.result { isError := true,
                 text := "invalid backup policy json: " ++ "unexpected end of JSON input" },
       { factoryCalls := 0, upstreamCalls := 0 }) :=
  ⟨rfl, by decide,
   c7_invalid_backup_policy (.ok stubClient)
     (fun _ => .error "unexpected end of JSON input") stubMarshal
     [("Name", Value.str "test"), ("Size", Value.str "s-1vcpu-1gb"),
      ("ImageID", Value.num 456), ("Region", Value.str "nyc1"),
      ("BackupPolicy", Value.str "not json")]
     "test" "s-1vcpu-1gb" "nyc1" 456 "not json" "unexpected end of JSON input"
     rfl rfl rfl rfl rfl (by decide) rfl⟩

/-! Lemmas about the schema builder's properties map. -/

theorem lookupProp_insertProp_self (props : List (String × PropertyRecord))
    (name : String) (prop : PropertyRecord) :
    lookupProp (insertProp props name prop) name = some prop := by
  induction props with
  | nil => simp [insertProp, lookupProp]
  | cons kv rest ih =>
    rcases kv with ⟨k, v⟩
    by_cases h : k = name
    · simp [insertProp, lookupProp, h]
    · simp [insertProp, lookupProp, h, ih]

theorem lookupProp_insertProp_ne (props : List (String × PropertyRecord))
    (name k : String) (prop : PropertyRecord) (hk : k ≠ name) :
    lookupProp (insertProp props name prop) k = lookupProp props k := by
  induction props with
  | nil =>
    have hk2 : ¬name = k := fun h => hk h.symm
    simp [insertProp, lookupProp, hk2]
  | cons kv rest ih =>
    rcases kv with ⟨k2, v⟩
    have hkk : ¬name = k := fun h => hk h.symm
    by_cases h : k2 = name
    · simp [insertProp, lookupProp, h, hkk]
    · by_cases h2 : k2 = k
      · simp [insertProp, lookupProp, h, h2, hk]
      · simp [insertProp, lookupProp, h, h2, ih]

theorem lookupProp_insertProp_isSome (props : List (String × PropertyRecord))
    (name k : String) (prop : PropertyRecord) :
    (lookupProp (insertProp props name prop) k).isSome = true ↔
      k = name ∨ (lookupProp props k).isSome = true := by
  by_cases h : k = name
  · subst h
    simp [lookupProp_insertProp_self]
  · simp [lookupProp_insertProp_ne _ _ _ _ h, h]

theorem buildLoop_required (l : List ArgumentConfig)
    (props : List (String × PropertyRecord)) (required : List String) :
    (buildLoop l props required).2 =
      required ++ (l.filter (·.required)).map (·.name) := by
  induction l generalizing props required with
  | nil => simp [buildLoop]
  | cons a rest ih =>
    by_cases h : a.required = true <;>
      simp [buildLoop, h, ih, List.filter_cons]

theorem buildLoop_lookup_preserved (l : List ArgumentConfig)
    (props : List (String × PropertyRecord)) (required : List String)
    (k : String) (hk : k ∉ l.map (·.name)) :
    lookupProp (buildLoop l props required).1 k = lookupProp props k := by
  induction l generalizing props required with
  | nil => rfl
  | cons a rest ih =>
    simp only [List.map_cons, List.mem_cons] at hk
    push_neg at hk
    rw [buildLoop, ih _ _ hk.2, lookupProp_insertProp_ne _ _ _ _ hk.1]

theorem buildLoop_lookup_mem (l : List ArgumentConfig)
    (props : List (String × PropertyRecord)) (required : List String)
    (arg : ArgumentConfig) (hnodup : (l.map (·.name)).Nodup) (ha : arg ∈ l) :
    lookupProp (buildLoop l props required).1 arg.name =
      some { type := typeString arg.type, description := arg.description,
             default := arg.defaultValue } := by
  induction l generalizing props required with
  | nil => cases ha
  | cons a rest ih =>
    simp only [List.map_cons, List.nodup_cons] at hnodup
    rcases List.mem_cons.mp ha with rfl | ha2
    · rw [buildLoop, buildLoop_lookup_preserved rest _ _ _ hnodup.1]
      exact lookupProp_insertProp_self props arg.name _
    · exact ih _ _ hnodup.2 ha2

theorem buildLoop_isSome (l : List ArgumentConfig)
    (props : List (String × PropertyRecord)) (required : List String)
    (k : String) :
    (lookupProp (buildLoop l props required).1 k).isSome = true ↔
      (lookupProp props k).isSome = true ∨ k ∈ l.map (·.name) := by
  induction l generalizing props required with
  | nil => simp [buildLoop]
  | cons a rest ih =>
    rw [buildLoop, ih, lookupProp_insertProp_isSome]
    simp only [List.map_cons, List.mem_cons]
    tauto

/-- Claim C8: the schema builder is a pure function that maps each argument
name to a record holding the argument's type string and description, carrying
the descriptor's default exactly when it is non-nil (the record's `Option`
field), and whose required list is exactly the names of the required
descriptors in declaration order.  The name-uniqueness hypothesis reflects the
data model's requirement that argument names identify descriptors. -/
theorem c8_schema_builder (tc : ToolConfig)
    (hnodup : (tc.arguments.map (·.name)).Nodup) :
    (∀ arg ∈ tc.arguments,
       lookupProp (BuildMCPTool tc).properties arg.name =
         some { type := typeString arg.type, description := arg.description,
                default := arg.defaultValue }) ∧
    (∀ k : String, (lookupProp (BuildMCPTool tc).properties k).isSome = true ↔
       k ∈ tc.arguments.map (·.name)) ∧
    (BuildMCPTool tc).required = (tc.arguments.filter (·.required)).map (·.name) := by
  refine ⟨?_, ?_, ?_⟩
  · intro arg ha
    exact buildLoop_lookup_mem tc.arguments [] [] arg hnodup ha
  · intro k
    rw [show (BuildMCPTool tc).properties = (buildLoop tc.arguments [] []).1 from rfl,
      buildLoop_isSome]
    simp [lookupProp]
  · rw [show (BuildMCPTool tc).required = (buildLoop tc.arguments [] []).2 from rfl,
      buildLoop_required]
    simp

theorem c8_witness :
    ((dropletCreateConfig.arguments.map (·.name)).Nodup) ∧
    (BuildMCPTool dropletCreateConfig).required = ["Name", "Size", "ImageID", "Region"] ∧
    lookupProp (BuildMCPTool dropletCreateConfig).properties "Backup" =
      some { type := "boolean", description := "Whether to enable backups",
             default := some (Value.bool false) } :=
  ⟨by decide,
   by rw [(c8_schema_builder dropletCreateConfig (by decide)).2.2]; rfl,
   (c8_schema_builder dropletCreateConfig (by decide)).1
     { name := "Backup", type := .boolean,
       description := "Whether to enable backups",
       required := false, defaultValue := some (.bool false) }
     (List.Mem.tail _ (List.Mem.tail _ (List.Mem.tail _ (List.Mem.tail _
       (List.Mem.head _)))))⟩

/-- With an always-succeeding create stub, `handleDropletCreate` returns a
value with one upstream call. -/
theorem handleDropletCreate_ok (client : Client) (args : Args)
    (hc : ∀ r, ∃ v, client.dropletsCreate r = .ok v) :
    ∃ v, handleDropletCreate client args = (.ok v, 1) := by
  simp only [handleDropletCreate]
  split
  · next e heq =>
    obtain ⟨v, hv⟩ := hc _
    rw [hv] at heq
    cases heq
  · next droplet heq => exact ⟨droplet, rfl⟩

/-- Claim C3, counterexample: for the droplet-get descriptor, an invocation
with the required ID argument present (as a string) and a stubbed upstream
client configured to succeed still yields a fault result, because the handler
rejects an ID whose numeric extraction is 0. -/
theorem c3_counterexample :
    (lookupArg [("ID", Value.str "abc")] "ID").isSome = true ∧
    SucceedingClient stubClient ∧ TotalMarshal stubMarshal ∧
    (GenericToolHandler dropletGetConfig (.ok stubClient) stubMarshal
        ⟨[("ID", Value.str "abc")]⟩).1 =
      .result { isError := true, text := "api error: Droplet ID is required" } :=
  ⟨rfl, stubClient_succeeds, stubMarshal_total, rfl⟩

/-- When validation passes and the handler returns a value, a dispatch with a
total marshalling function produces a non-fault result. -/
theorem dispatch_ok_nonFault (config : ToolConfig) (client : Client)
    (marshal : Value → Except String String) (htm : TotalMarshal marshal)
    (req : CallToolRequest) (v : Value) (n : Nat)
    (hval : ValidateArguments config req.getArguments = none)
    (hh : config.handler client req.getArguments = (.ok v, n)) :
    (GenericToolHandler config (.ok client) marshal req).1.isNonFault = true := by
  simp only [GenericToolHandler, hval, hh]
  cases v with
  | str s => rfl
  | num q =>
    obtain ⟨s, hs⟩ := htm (.num q)
    simp [hs, DispatchOutcome.isNonFault, newToolResultText]
  | int k =>
    obtain ⟨s, hs⟩ := htm (.int k)
    simp [hs, DispatchOutcome.isNonFault, newToolResultText]
  | bool b =>
    obtain ⟨s, hs⟩ := htm (.bool b)
    simp [hs, DispatchOutcome.isNonFault, newToolResultText]
  | arr es =>
    obtain ⟨s, hs⟩ := htm (.arr es)
    simp [hs, DispatchOutcome.isNonFault, newToolResultText]
  | obj fs =>
    obtain ⟨s, hs⟩ := htm (.obj fs)
    simp [hs, DispatchOutcome.isNonFault, newToolResultText]
  | null =>
    obtain ⟨s, hs⟩ := htm .null
    simp [hs, DispatchOutcome.isNonFault, newToolResultText]

/-- Claim C3, amended: for every descriptor, invoking with a required argument
absent and the remaining required arguments present yields a fault naming that
argument; and for each of the config-based tools with required arguments,
invoking with the required arguments present with values the handler accepts
(for the numeric-ID tools, a number with nonzero truncation) against a
succeeding stub yields a non-fault result. -/
theorem c3_amended_required_argument_behaviour :
    (∀ (config : ToolConfig) (a : ArgumentConfig) (clientFactory : Except String Client)
       (marshal : Value → Except String String) (req : CallToolRequest),
       a ∈ config.arguments → a.required = true →
       lookupArg req.getArguments a.name = none →
       (∀ b ∈ config.arguments, b.required = true → b.name ≠ a.name →
          (lookupArg req.getArguments b.name).isSome = true) →
       (GenericToolHandler config clientFactory marshal req).1 =
         .result { isError := true, text := "missing required argument: " ++ a.name }) ∧
    (∀ (client : Client) (marshal : Value → Except String String) (args : Args) (q : ℚ),
       SucceedingClient client → TotalMarshal marshal →
       lookupArg args "ID" = some (.num q) → ratTrunc q ≠ 0 →
       (GenericToolHandler dropletGetConfig (.ok client) marshal ⟨args⟩).1.isNonFault
         = true) ∧
    (∀ (client : Client) (marshal : Value → Except String String) (args : Args),
       SucceedingClient client → TotalMarshal marshal →
       (lookupArg args "Name").isSome = true → (lookupArg args "Size").isSome = true →
       (lookupArg args "ImageID").isSome = true → (lookupArg args "Region").isSome = true →
       (GenericToolHandler dropletCreateConfig (.ok client) marshal ⟨args⟩).1.isNonFault
         = true) ∧
    (∀ (client : Client) (marshal : Value → Except String String) (args : Args) (q : ℚ),
       SucceedingClient client → TotalMarshal marshal →
       lookupArg args "ID" = some (.num q) → ratTrunc q ≠ 0 →
       (GenericToolHandler dropletDeleteConfig (.ok client) marshal ⟨args⟩).1.isNonFault
         = true) ∧
    (∀ (client : Client) (marshal : Value → Except String String) (args : Args) (q : ℚ),
       SucceedingClient client → TotalMarshal marshal →
       lookupArg args "ID" = some (.num q) → ratTrunc q ≠ 0 →
       (GenericToolHandler dropletNeighborsConfig (.ok client) marshal ⟨args⟩).1.isNonFault
         = true) := by
  refine ⟨?_, ?_, ?_, ?_, ?_⟩
  · intro config a clientFactory marshal req ha hreq habsent hothers
    obtain ⟨c, hc, hcn⟩ := find?_some_name config.arguments
      (fun arg => arg.required && (lookupArg req.getArguments arg.name).isNone) a ha
      (by simp [hreq, habsent])
      (by
        intro b hb hpb
        rw [Bool.and_eq_true] at hpb
        rcases hpb with ⟨hbreq, hbnone⟩
        by_contra hne
        have h3 := hothers b hb hbreq hne
        rw [← Option.bnot_isSome, h3] at hbnone
        simp at hbnone)
    rw [dispatch_stops_on_missing config clientFactory marshal req c hc]
    simp [hcn]
  · intro client marshal args q hsc htm hid hq
    have hval : ValidateArguments dropletGetConfig args = none := by
      simp [ValidateArguments, validateLoop, dropletGetConfig, hid]
    have hnum : GetArgumentNumber args "ID" = ratTrunc q := by
      rw [GetArgumentNumber, hid]
    obtain ⟨v, hv⟩ := hsc.1 (ratTrunc q)
    have hh : dropletGetConfig.handler client args = (.ok v, 1) := by
      simp [dropletGetConfig, handleDropletGet, hnum, hq, hv]
    exact dispatch_ok_nonFault dropletGetConfig client marshal htm ⟨args⟩ v 1 hval hh
  · intro client marshal args hsc htm hn hs2 hi hr
    have hval : ValidateArguments dropletCreateConfig args = none := by
      have e1 : (lookupArg args "Name").isNone = false := by
        rw [← Option.bnot_isSome, hn]; rfl
      have e2 : (lookupArg args "Size").isNone = false := by
        rw [← Option.bnot_isSome, hs2]; rfl
      have e3 : (lookupArg args "ImageID").isNone = false := by
        rw [← Option.bnot_isSome, hi]; rfl
      have e4 : (lookupArg args "Region").isNone = false := by
        rw [← Option.bnot_isSome, hr]; rfl
      simp [ValidateArguments, validateLoop, dropletCreateConfig, e1, e2, e3, e4]
    obtain ⟨v, hvh⟩ := handleDropletCreate_ok client args hsc.2.2.2.2.1
    have hh : dropletCreateConfig.handler client args = (.ok v, 1) := hvh
    exact dispatch_ok_nonFault dropletCreateConfig client marshal htm ⟨args⟩ v 1 hval hh
  · intro client marshal args q hsc htm hid hq
    have hval : ValidateArguments dropletDeleteConfig args = none := by
      simp [ValidateArguments, validateLoop, dropletDeleteConfig, hid]
    have hnum : GetArgumentNumber args "ID" = ratTrunc q := by
      rw [GetArgumentNumber, hid]
    have hdel := hsc.2.1 (ratTrunc q)
    have hh : dropletDeleteConfig.handler client args =
        (.ok (.str "Droplet deleted successfully"), 1) := by
      simp [dropletDeleteConfig, handleDropletDelete, hnum, hq, hdel]
    exact dispatch_ok_nonFault dropletDeleteConfig client marshal htm ⟨args⟩ _ 1 hval hh
  · intro client marshal args q hsc htm hid hq
    have hval : ValidateArguments dropletNeighborsConfig args = none := by
      simp [ValidateArguments, validateLoop, dropletNeighborsConfig, hid]
    have hnum : GetArgumentNumber args "ID" = ratTrunc q := by
      rw [GetArgumentNumber, hid]
    obtain ⟨v, hv⟩ := hsc.2.2.2.1 (ratTrunc q)
    have hh : dropletNeighborsConfig.handler client args = (.ok v, 1) := by
      simp [dropletNeighborsConfig, handleDropletNeighbors, hnum, hq, hv]
    exact dispatch_ok_nonFault dropletNeighborsConfig client marshal htm ⟨args⟩ v 1 hval hh

theorem c3_amended_witness :
    (GenericToolHandler dropletGetConfig (.ok stubClient) stubMarshal ⟨[]⟩).1 =
      .result { isError := true, text := "missing required argument: " ++ "ID" } ∧
    (GenericToolHandler dropletGetConfig (.ok stubClient) stubMarshal
        ⟨[("ID", Value.num 5)]⟩).1.isNonFault = true ∧
    (GenericToolHandler dropletCreateConfig (.ok stubClient) stubMarshal
        ⟨[("Name", Value.str "test"), ("Size", Value.str "s-1vcpu-1gb"),
          ("ImageID", Value.num 456), ("Region", Value.str "nyc1")]⟩).1.isNonFault = true ∧
    (GenericToolHandler dropletDeleteConfig (.ok stubClient) stubMarshal
        ⟨[("ID", Value.num 7)]⟩).1.isNonFault = true ∧
    (GenericToolHandler dropletNeighborsConfig (.ok stubClient) stubMarshal
        ⟨[("ID", Value.num 7)]⟩).1.isNonFault = true :=
  ⟨c3_amended_required_argument_behaviour.1 dropletGetConfig
     { name := "ID", type := .number, description := "Droplet ID",
       required := true, defaultValue := none }
     (.ok stubClient) stubMarshal ⟨[]⟩ (List.Mem.head _) rfl rfl
     (by
        intro b hb hbreq hne
        rcases List.mem_singleton.mp hb with rfl
        exact absurd rfl hne),
   c3_amended_required_argument_behaviour.2.1 stubClient stubMarshal
     [("ID", Value.num 5)] 5 stubClient_succeeds stubMarshal_total rfl (by decide),
   c3_amended_required_argument_behaviour.2.2.1 stubClient stubMarshal
     [("Name", Value.str "test"), ("Size", Value.str "s-1vcpu-1gb"),
      ("ImageID", Value.num 456), ("Region", Value.str "nyc1")]
     stubClient_succeeds stubMarshal_total rfl rfl rfl rfl,
   c3_amended_required_argument_behaviour.2.2.2.1 stubClient stubMarshal
     [("ID", Value.num 7)] 7 stubClient_succeeds stubMarshal_total rfl (by decide),
   c3_amended_required_argument_behaviour.2.2.2.2 stubClient stubMarshal
     [("ID", Value.num 7)] 7 stubClient_succeeds stubMarshal_total rfl (by decide)⟩

end MCPDroplet
